import Mathlib

/-!
Verification development for the HDF5 library lifecycle core (`src/H5.c`):
the init/terminate orchestrator, the dependency-ordered shutdown engine,
the atclose registry, the version guard and the debug-mask machinery.

The C source is shallowly embedded: the process-wide globals
(`H5_libinit_g`, `H5_libterm_g`, `H5_dont_atexit_g`, `H5_atclose_head`,
`H5_debug_g`, the `checked` static of `H5_check_version`) become fields of
an explicit state record, and each C function becomes a Lean function on
that state.  External collaborators (the per-subsystem `term_package` and
`init` hooks, `getenv`, `fdopen`, allocation success) are passed in as
explicit environments.  `herr_t` is modelled by a two-valued type, machine
`int` pending counts by `Nat` (the term_package contract promises
non-negative results).  The model corresponds to a release-style build
(`NDEBUG` defined, no `H5_HAVE_PARALLEL`, no `H5_HAVE_THREADSAFE_API`).
-/

namespace HDF5

/-- Model of `herr_t` results: `SUCCEED` (0) or `FAIL` (negative). -/
inductive Herr where
  | SUCCEED
  | FAIL
deriving DecidableEq, Repr

/-- The 26 `DOWN(F)` call sites of `H5_term_library`, in source order. -/
inductive Subsys where
  | ES | L | A_top | D_top | G_top | M_top | S_top | T_top
  | F | P | A | D | G | M | S | T
  | AC | Z | FD | VL | PL | E | I | SL | FL | CX
deriving DecidableEq, Repr, Fintype

/-- The stringization `#F` used by the `DOWN` macro for the loop report. -/
def Subsys.cname : Subsys → String
  | .ES => "ES" | .L => "L" | .A_top => "A_top" | .D_top => "D_top"
  | .G_top => "G_top" | .M_top => "M_top" | .S_top => "S_top" | .T_top => "T_top"
  | .F => "F" | .P => "P" | .A => "A" | .D => "D" | .G => "G" | .M => "M"
  | .S => "S" | .T => "T" | .AC => "AC" | .Z => "Z" | .FD => "FD" | .VL => "VL"
  | .PL => "PL" | .E => "E" | .I => "I" | .SL => "SL" | .FL => "FL" | .CX => "CX"

/-- Index of the phase each subsystem belongs to, as listed in the spec's
shutdown-phase enumeration (phases 1 through 8). -/
def Subsys.phaseOf : Subsys → Nat
  | .ES => 1
  | .L => 2
  | .A_top | .D_top | .G_top | .M_top | .S_top | .T_top => 3
  | .F => 4
  | .P => 5
  | .A | .D | .G | .M | .S | .T => 6
  | .AC | .Z | .FD | .VL => 7
  | .PL | .E | .I | .SL | .FL | .CX => 8

/-- Index of the `if (pending == 0)` gating block each subsystem belongs to
in `H5_term_library`: subsystems in block `k` are attempted in a sweep
exactly when every subsystem in blocks `0 .. k-1` returned 0. -/
def Subsys.gateOf : Subsys → Nat
  | .ES => 0
  | .L | .A_top | .D_top | .G_top | .M_top | .S_top | .T_top => 1
  | .F => 2
  | .P => 3
  | .A | .D | .G | .M | .S | .T => 4
  | .AC | .Z | .FD | .VL => 5
  | .PL => 6
  | .E => 7
  | .I => 8
  | .SL => 9
  | .FL => 10
  | .CX => 11

/-- State threaded through one sweep of the shutdown engine: the `pending`
accumulator and the list of term_package hooks invoked so far (in call
order). -/
structure SweepSt where
  pending : Nat
  invoked : List Subsys
deriving DecidableEq, Repr

/-- One `pending += DOWN(F)` step (pending/invocation part): call the
subsystem's term_package, add its result to `pending`, record the call. -/
def ddown (f : Subsys → Nat) (st : SweepSt) (x : Subsys) : SweepSt :=
  { pending := st.pending + f x, invoked := st.invoked ++ [x] }

/-- A run of consecutive `pending += DOWN(F)` statements. -/
def downs (f : Subsys → Nat) (st : SweepSt) : List Subsys → SweepSt
  | [] => st
  | x :: xs => downs f (ddown f st x) xs

/-- One full sweep of the do-while body of `H5_term_library`, with its
exact `if (pending == 0)` gating structure.  `f x` is the value returned
by subsystem `x`'s term_package were it invoked during this sweep. -/
def sweepCore (f : Subsys → Nat) : SweepSt :=
  let st := downs f ⟨0, []⟩ [.ES]
  let st := if st.pending = 0 then
      downs f st [.L, .A_top, .D_top, .G_top, .M_top, .S_top, .T_top] else st
  let st := if st.pending = 0 then downs f st [.F] else st
  let st := if st.pending = 0 then downs f st [.P] else st
  let st := if st.pending = 0 then downs f st [.A, .D, .G, .M, .S, .T] else st
  if st.pending = 0 then
    let st := downs f st [.AC, .Z, .FD, .VL]
    let st := if st.pending = 0 then downs f st [.PL] else st
    let st := if st.pending = 0 then downs f st [.E] else st
    let st := if st.pending = 0 then downs f st [.I] else st
    let st := if st.pending = 0 then downs f st [.SL] else st
    let st := if st.pending = 0 then downs f st [.FL] else st
    if st.pending = 0 then downs f st [.CX] else st
  else st

/-- Buffer part of the `DOWN` macro: when the call returned nonzero, the
subsystem's name is appended to the `loop` report buffer (1024 bytes),
comma-separated, degrading to `"..."` and then to nothing as the buffer
fills.  `at` in the C code always equals the current string length. -/
def bufAfterOne (f : Subsys → Nat) (buf : String) (x : Subsys) : String :=
  if f x ≠ 0 then
    if buf.length + 8 < 1024 then
      buf ++ (if buf.length ≠ 0 then "," else "") ++ x.cname
    else if buf.length + 5 < 1024 then buf ++ "..."
    else buf
  else buf

/-- The `loop` buffer contents after one sweep: the `DOWN` buffer update
is applied once per hook invocation, in call order. -/
def sweepBuf (f : Subsys → Nat) (buf : String) : String :=
  (sweepCore f).invoked.foldl (bufAfterOne f) buf

/-- Result of the whole do-while retry loop of `H5_term_library`. -/
structure LoopOut where
  sweeps : Nat
  pending : Nat
  buf : String
  log : List Subsys
deriving Repr

/-- The `do { ... } while (pending && ntries++ < 100)` loop.  `tp k x` is
the term_package result subsystem `x` would report during sweep `k`.  The
C code counts `ntries` upward from 0 and retries while `ntries++ < 100`;
here `retriesLeft = 100 - ntries` counts the remaining allowed retries
downward, which is the same test. -/
def termLoopGo (tp : Nat → Subsys → Nat) : Nat → Nat → String → List Subsys → LoopOut
  | 0, i, buf, log =>
      let r := sweepCore (tp i)
      { sweeps := i + 1, pending := r.pending, buf := sweepBuf (tp i) buf,
        log := log ++ r.invoked }
  | rl + 1, i, buf, log =>
      let r := sweepCore (tp i)
      let buf1 := sweepBuf (tp i) buf
      let log1 := log ++ r.invoked
      if r.pending ≠ 0 then termLoopGo tp rl (i + 1) buf1 log1
      else { sweeps := i + 1, pending := r.pending, buf := buf1, log := log1 }

/-- The retry loop as entered by `H5_term_library`: sweep counter and
`ntries` start at 0 (so 100 retries remain), the report buffer starts
empty. -/
def termLoop (tp : Nat → Subsys → Nat) : LoopOut :=
  termLoopGo tp 100 0 "" []

theorem sanity_sweep_allzero :
    (sweepCore (fun _ => 0)).invoked =
      [.ES, .L, .A_top, .D_top, .G_top, .M_top, .S_top, .T_top,
       .F, .P, .A, .D, .G, .M, .S, .T,
       .AC, .Z, .FD, .VL, .PL, .E, .I, .SL, .FL, .CX] := by decide

theorem sanity_sweep_Lstuck :
    (sweepCore (fun x => if x = .L then 1 else 0)).invoked =
      [.ES, .L, .A_top, .D_top, .G_top, .M_top, .S_top, .T_top] := by decide

/-! ## Debug configuration (`H5_debug_t`, `H5__debug_mask`) -/

/-- A `FILE *` debug stream: the process standard-error stream, or a
stream obtained by `fdopen` on a numeric file descriptor. -/
inductive DStream where
  | stderrS
  | fdS (fd : Nat)
deriving DecidableEq, Repr

/-- Model of `H5_debug_t`: the per-package `(name, stream)` table, the
three trace flags, and the list of `fdopen`ed streams (newest first). -/
structure H5Debug where
  pkg : List (List Char × Option DStream)
  trace : Option DStream
  ttop : Bool
  ttimes : Bool
  openStream : List DStream
deriving DecidableEq, Repr

/-- The package names assigned by `H5_init_library`, in table order. -/
def pkgNames : List (List Char) :=
  ["a", "ac", "b", "d", "e", "f", "g", "hg", "hl", "i",
   "m", "mf", "mm", "o", "p", "s", "t", "v", "vl", "z"].map String.toList

/-- `H5_debug_g` right after the `memset` and name assignments in
`H5_init_library`: all streams null, all flags clear. -/
def initDebug : H5Debug :=
  { pkg := pkgNames.map (fun n => (n, none)), trace := none,
    ttop := false, ttimes := false, openStream := [] }

/-- C-locale `isalpha` on the ASCII input the parser sees. -/
def cIsAlpha (c : Char) : Bool :=
  ('a' ≤ c && c ≤ 'z') || ('A' ≤ c && c ≤ 'Z')

/-- C-locale `isdigit`. -/
def cIsDigit (c : Char) : Bool := '0' ≤ c && c ≤ '9'

def cIsOctDigit (c : Char) : Bool := '0' ≤ c && c ≤ '7'

def cIsHexDigit (c : Char) : Bool :=
  cIsDigit c || ('a' ≤ c && c ≤ 'f') || ('A' ≤ c && c ≤ 'F')

def cDigitVal (c : Char) : Nat := c.toNat - '0'.toNat

def cHexVal (c : Char) : Nat :=
  if cIsDigit c then cDigitVal c
  else if 'a' ≤ c && c ≤ 'f' then c.toNat - 'a'.toNat + 10
  else c.toNat - 'A'.toNat + 10

/-- Digit-run accumulation used by the `strtol` model: consume digits of
the given base, returning the value and the unconsumed rest. -/
def parseBase (b : Nat) (isD : Char → Bool) (val : Char → Nat) :
    List Char → Nat → Nat × List Char
  | c :: cs, acc => if isD c then parseBase b isD val cs (acc * b + val c) else (acc, c :: cs)
  | [], acc => (acc, [])

/-- Whether a hexadecimal digit begins the list (so that a leading `0x`
is consumed as a hex prefix rather than as the number 0). -/
def hexFollows : List Char → Bool
  | c :: _ => cIsHexDigit c
  | [] => false

/-- `strtol(s, &rest, 0)` for the non-negative, digit-initial strings the
callers guarantee: leading `0x`/`0X` selects hexadecimal (only when a hex
digit follows), a leading `0` selects octal, otherwise decimal. -/
def cStrtol0 : List Char → Nat × List Char
  | c :: x :: cs =>
      if c = '0' then
        if (x == 'x' || x == 'X') && hexFollows cs then
          parseBase 16 cIsHexDigit cHexVal cs 0
        else
          parseBase 8 cIsOctDigit cDigitVal (x :: cs) 0
      else parseBase 10 cIsDigit cDigitVal (c :: x :: cs) 0
  | cs => parseBase 10 cIsDigit cDigitVal cs 0

/-- External effects `H5__debug_mask` depends on: whether `fdopen(fd,"w")`
succeeds, and whether the `H5MM_malloc` for the open-stream record
succeeds. -/
structure DbgEnv where
  fdopenOk : Nat → Bool
  mallocOk : Nat → Bool

/-- The package-table search loop: set the stream of the first package
whose name matches, reporting whether a match was found (an unmatched
name is reported to stderr and otherwise ignored). -/
def pkgAssign (nm : List Char) (v : Option DStream) :
    List (List Char × Option DStream) → List (List Char × Option DStream) × Bool
  | [] => ([], false)
  | p :: ps =>
      if p.1 = nm then ((p.1, v) :: ps, true)
      else
        let r := pkgAssign nm v ps
        (p :: r.1, r.2)

/-- Dispatch on a parsed name token: `trace`, `ttop`, `ttimes`, `all`, or
a package name, exactly as in the `if`/`else` chain of `H5__debug_mask`. -/
def dbgApplyName (nm : List Char) (clear : Bool) (cur : Option DStream)
    (d : H5Debug) : H5Debug :=
  if nm = "trace".toList then { d with trace := if clear then none else cur }
  else if nm = "ttop".toList then { d with trace := cur, ttop := !clear }
  else if nm = "ttimes".toList then { d with trace := cur, ttimes := !clear }
  else if nm = "all".toList then
    { d with pkg := d.pkg.map (fun p => (p.1, if clear then none else cur)) }
  else { d with pkg := (pkgAssign nm (if clear then none else cur) d.pkg).1 }

theorem parseBase_rest_le (b : Nat) (isD : Char → Bool) (val : Char → Nat) :
    ∀ (cs : List Char) (acc : Nat), (parseBase b isD val cs acc).2.length ≤ cs.length := by
  intro cs
  induction cs with
  | nil => intro acc; simp [parseBase]
  | cons c cs ih =>
      intro acc
      by_cases h : isD c
      · simpa [parseBase, h] using Nat.le_succ_of_le (ih _)
      · simp [parseBase, h]

theorem parseBase_cons_le (b : Nat) (isD : Char → Bool) (val : Char → Nat)
    (c : Char) (cs : List Char) (acc : Nat) (h : isD c = true) :
    (parseBase b isD val (c :: cs) acc).2.length ≤ cs.length := by
  rw [show parseBase b isD val (c :: cs) acc
      = parseBase b isD val cs (acc * b + val c) by simp [parseBase, h]]
  exact parseBase_rest_le _ _ _ _ _

theorem cStrtol0_rest_lt (c : Char) (cs : List Char) (h : cIsDigit c = true) :
    (cStrtol0 (c :: cs)).2.length < (c :: cs).length := by
  match cs with
  | [] =>
      have he : cStrtol0 [c] = parseBase 10 cIsDigit cDigitVal [c] 0 := by
        simp [cStrtol0]
      rw [he]
      have h1 : (parseBase 10 cIsDigit cDigitVal [c] 0).2.length ≤ 0 := by
        simpa using parseBase_cons_le 10 cIsDigit cDigitVal c [] 0 h
      simp only [List.length_cons, List.length_nil]
      omega
  | x :: cs' =>
      have he : cStrtol0 (c :: x :: cs')
          = if c = '0' then
              (if (x == 'x' || x == 'X') && hexFollows cs' then
                parseBase 16 cIsHexDigit cHexVal cs' 0
              else parseBase 8 cIsOctDigit cDigitVal (x :: cs') 0)
            else parseBase 10 cIsDigit cDigitVal (c :: x :: cs') 0 := by
        simp [cStrtol0]
      rw [he]
      by_cases hc : c = '0'
      · rw [if_pos hc]
        by_cases hx : ((x == 'x' || x == 'X') && hexFollows cs') = true
        · rw [if_pos hx]
          have := parseBase_rest_le 16 cIsHexDigit cHexVal cs' 0
          simp only [List.length_cons]
          omega
        · rw [if_neg hx]
          have := parseBase_rest_le 8 cIsOctDigit cDigitVal (x :: cs') 0
          simp only [List.length_cons] at this ⊢
          omega
      · rw [if_neg hc]
        have := parseBase_cons_le 10 cIsDigit cDigitVal c (x :: cs') 0 h
        simp only [List.length_cons] at this ⊢
        omega

theorem dropWhile_length_le (p : Char → Bool) (l : List Char) :
    (l.dropWhile p).length ≤ l.length := by
  induction l with
  | nil => simp
  | cons a l ih =>
      rw [List.dropWhile_cons]
      split
      · exact Nat.le_succ_of_le ih
      · simp

/-- The token scan loop of `H5__debug_mask`, on the remaining characters,
the current stream variable (`none` models a `NULL` `FILE *`, as left by
a failed `fdopen`), and the debug record.  A failed record allocation
closes the just-opened stream and abandons the rest of the string. -/
def dmGo (env : DbgEnv) : List Char → Option DStream → H5Debug → H5Debug
  | [], _, d => d
  | c :: cs, cur, d =>
    if halpha : cIsAlpha c || c == '-' || c == '+' then
      if hsign : c == '-' || c == '+' then
        dmGo env (cs.dropWhile cIsAlpha) cur
          (dbgApplyName ((cs.takeWhile cIsAlpha).take 31) (c == '-') cur d)
      else
        dmGo env ((c :: cs).dropWhile cIsAlpha) cur
          (dbgApplyName (((c :: cs).takeWhile cIsAlpha).take 31) false cur d)
    else if hdig : cIsDigit c then
      let r := cStrtol0 (c :: cs)
      if env.fdopenOk r.1 then
        if env.mallocOk r.1 then
          dmGo env r.2 (some (DStream.fdS r.1))
            { d with openStream := DStream.fdS r.1 :: d.openStream }
        else d
      else dmGo env r.2 none d
    else dmGo env cs cur d
termination_by s _ _ => s.length
decreasing_by
  · have := dropWhile_length_le cIsAlpha cs
    simp only [List.length_cons]
    omega
  · have hc : cIsAlpha c = true := by
      rcases Bool.or_eq_true_iff.mp halpha with h' | h'
      · rcases Bool.or_eq_true_iff.mp h' with h'' | h''
        · exact h''
        · exact absurd (Bool.or_eq_true_iff.mpr (Or.inl h'')) hsign
      · exact absurd (Bool.or_eq_true_iff.mpr (Or.inr h')) hsign
    rw [List.dropWhile_cons, if_pos hc]
    have := dropWhile_length_le cIsAlpha cs
    simp only [List.length_cons]
    omega
  · exact cStrtol0_rest_lt c cs hdig
  · exact cStrtol0_rest_lt c cs hdig
  · simp only [List.length_cons]
    omega

/-- `H5__debug_mask(s)` where `s` is a possibly-`NULL` C string: a `NULL`
or empty string parses nothing; otherwise the scan starts with the
current stream set to standard error. -/
def H5__debug_mask (env : DbgEnv) (d : H5Debug) : Option (List Char) → H5Debug
  | none => d
  | some cs => dmGo env cs (some DStream.stderrS) d

/-! ## Version guard (`H5_check_version`) -/

/-- The stderr messages `H5_check_version` can emit, in emission order.
`mismatchAbortMsg`/`mismatchWarnMsg` are the `VERSION_MISMATCH_WARNING`
text plus the level-0 advice respectively the level-1 continuation note;
`buildSettings` is the `H5build_settings` dump; `versionsLine` the
"Headers are ... library is ..." line; `byeMsg` the final "Bye..." before
`abort()`; the `release*` messages are the `RELEASE_MISMATCH_WARNING`
variants; `infoWarnMsg` the non-fatal `H5_VERS_INFO` consistency
warning. -/
inductive VMsg where
  | mismatchAbortMsg
  | mismatchWarnMsg
  | releaseAbortMsg
  | releaseWarnMsg
  | versionsLine
  | buildSettings
  | byeMsg
  | infoWarnMsg
deriving DecidableEq, Repr

/-- Observable outcome of one `H5_check_version` call: the messages
printed to stderr in order, whether `abort()` was reached, and the value
of the function's `checked` static afterwards. -/
structure CheckOut where
  output : List VMsg
  aborted : Bool
  checked : Bool
deriving DecidableEq, Repr

/-- The version numbers compiled into the running library
(`H5_VERS_MAJOR`, `H5_VERS_MINOR`, `H5_VERS_RELEASE`). -/
structure LibVersion where
  major : Nat
  minor : Nat
  release : Nat
deriving DecidableEq, Repr

/-- `VERS_RELEASE_EXCEPTIONS` (with `VERS_RELEASE_EXCEPTIONS_SIZE = 1`). -/
def VERS_RELEASE_EXCEPTIONS : List Nat := [0]

/-- The loop over the release-exception table: an entry matching either
the caller's or the library's release number triggers the three-level
response (level 0 prints the release warning and aborts, level 1 prints
and continues, level 2 and higher continues silently). -/
def relExcLoop (disable : Nat) (libRel relnum : Nat) :
    List Nat → List VMsg × Bool
  | [] => ([], false)
  | e :: es =>
      if e = relnum ∨ e = libRel then
        match disable with
        | 0 => ([.releaseAbortMsg, .versionsLine, .byeMsg], true)
        | 1 =>
            let r := relExcLoop disable libRel relnum es
            ([.releaseWarnMsg, .versionsLine] ++ r.1, r.2)
        | _ => relExcLoop disable libRel relnum es
      else relExcLoop disable libRel relnum es

/-- The `HDF5_DISABLE_VERSION_CHECK` read: `strtol(s, NULL, 0)` when the
variable is set and starts with a digit, 0 otherwise. -/
def parseDisableEnv : Option (List Char) → Nat
  | none => 0
  | some [] => 0
  | some (c :: cs) => if cIsDigit c then (cStrtol0 (c :: cs)).1 else 0

/-- `H5_check_version(majnum, minnum, relnum)`.  `lib` holds the version
numbers compiled into the library, `versInfoConsistent` whether the
compiled `H5_VERS_INFO` string matches the one recomputed from the
numeric components, `env` the `HDF5_DISABLE_VERSION_CHECK` value and
`checked` the function's static.  `abort()` is modelled by returning with
`aborted := true` and suppressing everything that would have followed. -/
def H5_check_version (lib : LibVersion) (versInfoConsistent : Bool)
    (env : Option (List Char)) (checked : Bool)
    (majnum minnum relnum : Nat) : CheckOut :=
  if checked then { output := [], aborted := false, checked := true }
  else
    let disable := parseDisableEnv env
    let mm := lib.major ≠ majnum ∨ lib.minor ≠ minnum
    let out1 : List VMsg :=
      if mm then
        match disable with
        | 0 => [.mismatchAbortMsg, .versionsLine, .buildSettings, .byeMsg]
        | 1 => [.mismatchWarnMsg, .versionsLine, .buildSettings]
        | _ => []
      else []
    if mm ∧ disable = 0 then { output := out1, aborted := true, checked := false }
    else
      let rel : List VMsg × Bool :=
        if lib.release ≠ relnum then
          relExcLoop disable lib.release relnum VERS_RELEASE_EXCEPTIONS
        else ([], false)
      if rel.2 then { output := out1 ++ rel.1, aborted := true, checked := false }
      else
        let out3 : List VMsg :=
          if disable = 0 ∧ versInfoConsistent = false then [.infoWarnMsg] else []
        { output := out1 ++ rel.1 ++ out3, aborted := false, checked := true }

/-! ## Library state and lifecycle (`H5_init_library`, `H5_term_library`,
`H5atclose`, `H5dont_atexit`, `H5close`) -/

/-- An `H5_atclose_node_t`, with the function pointer and context value
represented opaquely by numbers (a registered pointer is never null). -/
structure ACEntry where
  func : Nat
  ctx : Nat
deriving DecidableEq, Repr

/-- The process-wide mutable state of the lifecycle core: `H5_libinit_g`,
`H5_libterm_g`, `H5_dont_atexit_g`, whether the `atexit` hook has been
installed, the `H5_atclose_head` list (newest registration first),
`H5_debug_g`, and the `checked` static of `H5_check_version`. -/
structure H5State where
  libinit : Bool
  libterm : Bool
  dontAtexit : Bool
  atexitInstalled : Bool
  atclose : List ACEntry
  debug : H5Debug
  versionChecked : Bool
deriving DecidableEq, Repr

/-- The eleven subsystem init hooks `H5_init_library` invokes, in call
order. -/
inductive InitStep where
  | sE | sFD | sVLp1 | sPp1 | sL | sO | sFS | sS | sT | sPp2 | sVLp2
deriving DecidableEq, Repr

def initSteps : List InitStep :=
  [.sE, .sFD, .sVLp1, .sPp1, .sL, .sO, .sFS, .sS, .sT, .sPp2, .sVLp2]

/-- External inputs of `H5_init_library`: the library's own version
numbers, the `H5_VERS_INFO` consistency bit and
`HDF5_DISABLE_VERSION_CHECK` (consumed by the version check), success of
each subsystem init hook, the `HDF5_DEBUG` environment string, and the
debug-mask externals. -/
structure InitEnv where
  lib : LibVersion
  versConsistent : Bool
  checkEnv : Option (List Char)
  stepOk : InitStep → Bool
  hdf5DebugEnv : Option (List Char)
  dbg : DbgEnv

/-- `H5_init_library`.  A no-op returning success when the library is
initialized or terminating; otherwise: version check (called with the
library's own numbers, so it cannot mismatch or abort), set
`H5_libinit_g` immediately, reset `H5_debug_g` and fill in the package
names, install the `atexit` hooks unless `H5dont_atexit` was called (and
latch `H5_dont_atexit_g`), run the subsystem inits (any failure aborts
with the partial state kept), then run the debug mask twice: once with
`"-all"` and once with `getenv("HDF5_DEBUG")`. -/
def H5_init_library (env : InitEnv) (s : H5State) : H5State × Herr :=
  if s.libinit = true ∨ s.libterm = true then (s, .SUCCEED)
  else
    let co := H5_check_version env.lib env.versConsistent env.checkEnv
      s.versionChecked env.lib.major env.lib.minor env.lib.release
    let s1 : H5State :=
      { s with versionChecked := co.checked, libinit := true, debug := initDebug }
    let s2 : H5State :=
      if s1.dontAtexit = false then
        { s1 with atexitInstalled := true, dontAtexit := true }
      else s1
    if initSteps.all env.stepOk then
      let d1 := H5__debug_mask env.dbg s2.debug (some "-all".toList)
      let d2 := H5__debug_mask env.dbg d1 env.hdf5DebugEnv
      ({ s2 with debug := d2 }, .SUCCEED)
    else (s2, .FAIL)

/-- `H5__init_package`: run `H5_init_library` unless the library is
already initialized or shutting down. -/
def H5__init_package (env : InitEnv) (s : H5State) : H5State × Herr :=
  if s.libinit = false ∧ s.libterm = false then H5_init_library env s
  else (s, .SUCCEED)

/-- External inputs of `H5_term_library`: the per-sweep term_package
results, and whether the default error-auto function is set (i.e. error
display is enabled), as obtained via `H5E_get_default_auto_func`. -/
structure TermEnv where
  tp : Nat → Subsys → Nat
  funcSet : Bool

/-- Observable trace of one `H5_term_library` call: the atclose callbacks
invoked (in invocation order), the number of sweeps executed, the final
pending count, the `loop` report buffer, whether the "infinite loop
closing library" report was printed, and every term_package hook
invocation across all sweeps, in order. -/
structure TermTrace where
  callbacks : List ACEntry
  sweeps : Nat
  pending : Nat
  loopMsg : String
  reportedLoop : Bool
  hooks : List Subsys
deriving DecidableEq, Repr

/-- The trace of a call that hit the `!H5_INIT_GLOBAL` early exit. -/
def emptyTrace : TermTrace :=
  { callbacks := [], sweeps := 0, pending := 0, loopMsg := "",
    reportedLoop := false, hooks := [] }

/-- `H5_term_library` (release-style build, so a non-converged shutdown
warns without calling `abort()`).  A no-op when the library is not
initialized; otherwise: set `H5_libterm_g`, invoke and free every atclose
node from the head down, reset the list head, run the retry loop of
term_package sweeps, print the infinite-loop report when work remains
pending and error display is enabled, close all open debug streams, and
clear `H5_libterm_g` and `H5_libinit_g`. -/
def H5_term_library (env : TermEnv) (s : H5State) : H5State × TermTrace :=
  if s.libinit = false then (s, emptyTrace)
  else
    let lr := termLoop env.tp
    let d1 : H5Debug := { s.debug with openStream := [] }
    let s1 : H5State :=
      { s with atclose := [], debug := d1, libterm := false, libinit := false }
    (s1,
      { callbacks := s.atclose, sweeps := lr.sweeps, pending := lr.pending,
        loopMsg := lr.buf,
        reportedLoop := decide (lr.pending ≠ 0) && env.funcSet,
        hooks := lr.log })

/-- `H5dont_atexit`: fails if the one-shot flag is already set (whether
by an earlier call or by a completed initialization), otherwise sets
it. -/
def H5dont_atexit (s : H5State) : H5State × Herr :=
  if s.dontAtexit = true then (s, .FAIL)
  else ({ s with dontAtexit := true }, .SUCCEED)

/-- `H5atclose(func, ctx)`.  The `FUNC_ENTER_API` prelude is modelled
from the spec: any public entry point first ensures initialization (the
visible `H5__init_package` path), failing the call if that fails.  Then:
reject a null `func`, allocate a node (`allocOk` is the allocator
outcome), and push it at the head of the registry. -/
def H5atclose (ienv : InitEnv) (allocOk : Bool) (func : Option Nat)
    (ctx : Nat) (s : H5State) : H5State × Herr :=
  let r := H5__init_package ienv s
  if r.2 = .FAIL then (r.1, .FAIL)
  else
    match func with
    | none => (r.1, .FAIL)
    | some fc =>
        if allocOk = false then (r.1, .FAIL)
        else ({ r.1 with atclose := ⟨fc, ctx⟩ :: r.1.atclose }, .SUCCEED)

/-- `H5close`: call `H5_term_library` (which returns no status) and
return `SUCCEED` unconditionally. -/
def H5close (env : TermEnv) (s : H5State) : H5State × Herr :=
  ((H5_term_library env s).1, .SUCCEED)

/-- `H5open`: all work is done by the `FUNC_ENTER` initialization. -/
def H5open (ienv : InitEnv) (s : H5State) : H5State × Herr :=
  H5__init_package ienv s

/-- Any call into the lifecycle core's public surface, for stating
properties quantified over every subsequent interaction. -/
inductive LibOp where
  | opOpen (ienv : InitEnv)
  | opClose (tenv : TermEnv)
  | opAtclose (ienv : InitEnv) (allocOk : Bool) (func : Option Nat) (ctx : Nat)
  | opDontAtexit
  | opInitLib (ienv : InitEnv)
  | opTermLib (tenv : TermEnv)

/-- The state transition of one public call (return values dropped). -/
def LibOp.step : LibOp → H5State → H5State
  | .opOpen ienv, s => (H5open ienv s).1
  | .opClose tenv, s => (H5close tenv s).1
  | .opAtclose ienv allocOk func ctx, s => (H5atclose ienv allocOk func ctx s).1
  | .opDontAtexit, s => (H5dont_atexit s).1
  | .opInitLib ienv, s => (H5_init_library ienv s).1
  | .opTermLib tenv, s => (H5_term_library tenv s).1

/-- `n`-fold repetition of `H5_init_library` from a given state. -/
def initIter (env : InitEnv) : Nat → H5State → H5State
  | 0, s => s
  | n + 1, s => initIter env n (H5_init_library env s).1

/-! ## Concrete instances used by witnesses -/

/-- The pristine process state: nothing initialized, nothing registered. -/
def freshState : H5State :=
  { libinit := false, libterm := false, dontAtexit := false,
    atexitInstalled := false, atclose := [], debug := initDebug,
    versionChecked := false }

/-- A state in which the library has been marked initialized. -/
def initState0 : H5State :=
  { freshState with
    libinit := true, dontAtexit := true, atexitInstalled := true,
    versionChecked := true }

/-- A termination environment whose subsystems are all quiescent and with
error display enabled. -/
def tEnv0 : TermEnv := { tp := fun _ _ => 0, funcSet := true }

/-- Sweep environment in which the event-set subsystem reports pending
work forever. -/
def stuckTp : Nat → Subsys → Nat := fun _ x => if x = .ES then 1 else 0

/-- A termination environment that can never converge. -/
def tEnvStuck : TermEnv := { tp := stuckTp, funcSet := true }

/-- An initialization environment in which every external step
succeeds and no environment variables are set. -/
def iEnv0 : InitEnv :=
  { lib := { major := 1, minor := 14, release := 5 }, versConsistent := true,
    checkEnv := none, stepOk := fun _ => true, hdf5DebugEnv := none,
    dbg := { fdopenOk := fun _ => true, mallocOk := fun _ => true } }

/-! ## Lifecycle lemmas -/

theorem init_noop (e : InitEnv) (s : H5State)
    (h : s.libinit = true ∨ s.libterm = true) :
    H5_init_library e s = (s, .SUCCEED) := by
  simp only [H5_init_library, if_pos h]

theorem init_libinit_true (e : InitEnv) (s : H5State)
    (h1 : s.libinit = false) (h2 : s.libterm = false) :
    (H5_init_library e s).1.libinit = true := by
  simp only [H5_init_library, h1, h2]
  split
  · simp_all
  · split <;> split <;> rfl

theorem init_dontAtexit_true (e : InitEnv) (s : H5State)
    (h1 : s.libinit = false) (h2 : s.libterm = false) :
    (H5_init_library e s).1.dontAtexit = true := by
  simp only [H5_init_library, h1, h2]
  split
  · simp_all
  · split <;> split <;> simp_all

theorem init_dontAtexit_mono (e : InitEnv) (s : H5State)
    (h : s.dontAtexit = true) :
    (H5_init_library e s).1.dontAtexit = true := by
  by_cases hno : s.libinit = true ∨ s.libterm = true
  · rw [init_noop e s hno]; exact h
  · push_neg at hno
    simp only [Bool.not_eq_true] at hno
    exact init_dontAtexit_true e s hno.1 hno.2

theorem step_dontAtexit_mono (op : LibOp) (s : H5State)
    (h : s.dontAtexit = true) : (op.step s).dontAtexit = true := by
  cases op with
  | opOpen ienv =>
      simp only [LibOp.step, H5open, H5__init_package]
      split
      · exact init_dontAtexit_mono _ _ h
      · exact h
  | opClose tenv =>
      simp only [LibOp.step, H5close, H5_term_library]
      split
      · exact h
      · exact h
  | opAtclose ienv allocOk func ctx =>
      have hbase : (H5__init_package ienv s).1.dontAtexit = true := by
        simp only [H5__init_package]
        split
        · exact init_dontAtexit_mono _ _ h
        · exact h
      simp only [LibOp.step, H5atclose]
      split
      · exact hbase
      · split
        · exact hbase
        · split
          · exact hbase
          · exact hbase
  | opDontAtexit =>
      simp only [LibOp.step, H5dont_atexit]
      split <;> simp_all
  | opInitLib ienv => exact init_dontAtexit_mono _ _ h
  | opTermLib tenv =>
      simp only [LibOp.step, H5_term_library]
      split
      · exact h
      · exact h

theorem foldl_dontAtexit_mono (ops : List LibOp) :
    ∀ s : H5State, s.dontAtexit = true →
      (ops.foldl (fun t op => op.step t) s).dontAtexit = true := by
  induction ops with
  | nil => intro s h; exact h
  | cons op ops ih =>
      intro s h
      exact ih _ (step_dontAtexit_mono op s h)

/-! ## Claim C5 -/

/-- C5: calling the termination entry point when the library is not
initialized is a no-op: the state (lifecycle flags, atclose registry,
debug configuration) is returned unchanged and the trace is empty (no
term_package hook invoked and no registered callback invoked). -/
theorem C5_term_uninit_noop (env : TermEnv) (s : H5State)
    (h : s.libinit = false) : H5_term_library env s = (s, emptyTrace) := by
  simp only [H5_term_library, h, if_pos]

/-- Witness for C5 at the pristine state. -/
theorem C5_witness :
    H5_term_library tEnv0 freshState = (freshState, emptyTrace) :=
  C5_term_uninit_noop tEnv0 freshState rfl

/-! ## Claim C9 -/

/-- C9: `H5close` returns `SUCCEED` for every library state and every
behavior of the shutdown engine; `H5_term_library` returns no status, so
a non-converged shutdown cannot surface through `H5close`. -/
theorem C9_close_always_succeeds (env : TermEnv) (s : H5State) :
    (H5close env s).2 = .SUCCEED := rfl

/-! ## Claim C4 -/

theorem init_fixed_point (e2 e1 : InitEnv) (s : H5State) :
    H5_init_library e2 (H5_init_library e1 s).1
      = ((H5_init_library e1 s).1, .SUCCEED) := by
  by_cases h : s.libinit = true ∨ s.libterm = true
  · rw [init_noop e1 s h, init_noop e2 s h]
  · push_neg at h
    simp only [Bool.not_eq_true] at h
    exact init_noop e2 _ (Or.inl (init_libinit_true e1 s h.1 h.2))

theorem initIter_fixed (e : InitEnv) (s : H5State) :
    ∀ n, initIter e n (H5_init_library e s).1 = (H5_init_library e s).1 := by
  intro n
  induction n with
  | zero => rfl
  | succ n ih =>
      have hfix := init_fixed_point e e s
      simp only [initIter, hfix]
      exact ih

/-- C4: calling `H5_init_library` when the library is already initialized
or while termination is in progress returns success without touching the
state; one further call after any call is a no-op returning success; and
`n + 1` calls leave exactly the state one call leaves. -/
theorem C4_init_idempotent (e1 e2 : InitEnv) (s : H5State) (n : Nat) :
    ((s.libinit = true ∨ s.libterm = true) →
        H5_init_library e1 s = (s, .SUCCEED)) ∧
    H5_init_library e2 (H5_init_library e1 s).1
      = ((H5_init_library e1 s).1, .SUCCEED) ∧
    initIter e1 (n + 1) s = initIter e1 1 s := by
  refine ⟨fun h => init_noop e1 s h, init_fixed_point e2 e1 s, ?_⟩
  simp only [initIter]
  exact initIter_fixed e1 s n

/-- Witness for C4: the implication is discharged at an
already-initialized concrete state. -/
theorem C4_witness :
    H5_init_library iEnv0 initState0 = (initState0, .SUCCEED) :=
  (C4_init_idempotent iEnv0 iEnv0 initState0 0).1 (Or.inl rfl)

/-! ## Claim C10 -/

/-- C10: after a successful initialization from a state with no prior
opt-out call, the opt-out entry point fails — after any further sequence
of public calls whatsoever — because `H5_init_library` latches
`H5_dont_atexit_g` when it installs the `atexit` hook. -/
theorem C10_optout_impossible (ienv : InitEnv) (s : H5State)
    (h1 : s.libinit = false) (h2 : s.libterm = false)
    (h3 : s.dontAtexit = false)
    (hsucc : (H5_init_library ienv s).2 = .SUCCEED) (ops : List LibOp) :
    (H5dont_atexit
        (ops.foldl (fun t op => op.step t) (H5_init_library ienv s).1)).2
      = .FAIL := by
  have hd := foldl_dontAtexit_mono ops _ (init_dontAtexit_true ienv s h1 h2)
  simp only [H5dont_atexit, hd, if_pos]

/-- Witness for C10 at the pristine state with one subsequent call. -/
theorem C10_witness :
    (H5dont_atexit
        ([LibOp.opDontAtexit].foldl (fun t op => op.step t)
          (H5_init_library iEnv0 freshState).1)).2 = .FAIL :=
  C10_optout_impossible iEnv0 freshState rfl rfl rfl (by decide)
    [LibOp.opDontAtexit]

/-! ## Claim C3 -/

/-- The state reached by a sequence of successful registrations on an
initialized library: still initialized, with the new entries stacked
newest-first on top of the previous registry. -/
theorem atclose_foldl (ienv : InitEnv) (regs : List (Nat × Nat)) :
    ∀ s : H5State, s.libinit = true →
      (regs.foldl (fun t r => (H5atclose ienv true (some r.1) r.2 t).1)
          s).libinit = true ∧
      (regs.foldl (fun t r => (H5atclose ienv true (some r.1) r.2 t).1)
          s).atclose
        = (regs.map (fun r => ACEntry.mk r.1 r.2)).reverse ++ s.atclose := by
  induction regs with
  | nil => intro s h; simpa using h
  | cons r rs ih =>
      intro s h
      have hstep : (H5atclose ienv true (some r.1) r.2 s).1
          = { s with atclose := ⟨r.1, r.2⟩ :: s.atclose } := by
        simp [H5atclose, H5__init_package, h]
      rw [List.foldl_cons, hstep]
      have := ih { s with atclose := ⟨r.1, r.2⟩ :: s.atclose } (by simp [h])
      simp only [this.1, this.2, true_and, List.map_cons, List.reverse_cons]
      simp

/-- C3: registering callbacks through `H5atclose` (each call successful)
on an initialized library with an empty registry, then terminating,
invokes exactly the registered callbacks, newest registration first
(reverse of registration order), and leaves the registry empty. -/
theorem C3_atclose_lifo (tenv : TermEnv) (ienv : InitEnv) (s : H5State)
    (regs : List (Nat × Nat)) (hinit : s.libinit = true)
    (hempty : s.atclose = []) :
    (H5_term_library tenv
        (regs.foldl (fun t r => (H5atclose ienv true (some r.1) r.2 t).1)
          s)).2.callbacks
      = (regs.map (fun r => ACEntry.mk r.1 r.2)).reverse ∧
    (H5_term_library tenv
        (regs.foldl (fun t r => (H5atclose ienv true (some r.1) r.2 t).1)
          s)).1.atclose = [] := by
  obtain ⟨hlib, hac⟩ := atclose_foldl ienv regs s hinit
  constructor
  · simp [H5_term_library, hlib, hac, hempty]
  · simp [H5_term_library, hlib]

/-- Witness for C3: three concrete registrations, invoked in order
`C3, C2, C1`. -/
theorem C3_witness :
    (H5_term_library tEnv0
        ([(1, 10), (2, 20), (3, 30)].foldl
          (fun t r => (H5atclose iEnv0 true (some r.1) r.2 t).1)
          initState0)).2.callbacks
      = [⟨3, 30⟩, ⟨2, 20⟩, ⟨1, 10⟩] ∧
    (H5_term_library tEnv0
        ([(1, 10), (2, 20), (3, 30)].foldl
          (fun t r => (H5atclose iEnv0 true (some r.1) r.2 t).1)
          initState0)).1.atclose = [] := by
  have := C3_atclose_lifo tEnv0 iEnv0 initState0 [(1, 10), (2, 20), (3, 30)]
    rfl rfl
  exact ⟨by rw [this.1]; rfl, this.2⟩

/-! ## Claim C2 -/

/-- When every sweep reports nonzero total pending work, the retry loop
burns all its remaining retries plus the final sweep, and ends with
nonzero pending work. -/
theorem termLoopGo_stuck (tp : Nat → Subsys → Nat)
    (h : ∀ k, (sweepCore (tp k)).pending ≠ 0) :
    ∀ (rl i : Nat) (buf : String) (log : List Subsys),
      (termLoopGo tp rl i buf log).sweeps = i + rl + 1 ∧
      (termLoopGo tp rl i buf log).pending ≠ 0 := by
  intro rl
  induction rl with
  | zero =>
      intro i buf log
      exact ⟨rfl, h i⟩
  | succ rl ih =>
      intro i buf log
      have hne := h i
      simp only [termLoopGo, if_pos hne]
      obtain ⟨h1, h2⟩ := ih (i + 1) (sweepBuf (tp i) buf)
        (log ++ (sweepCore (tp i)).invoked)
      constructor
      · rw [h1]; omega
      · exact h2

/-- C2 (amended): when every sweep's total pending count is nonzero, the
shutdown engine inside `H5_term_library` stops after exactly 101 sweeps
(the first sweep plus the 100 retries allowed by `ntries++ < 100`),
terminates (it is a total function), ends with pending work, and prints
the non-convergence report exactly when error display is enabled. -/
theorem C2_nonconvergence (env : TermEnv) (s : H5State)
    (hinit : s.libinit = true)
    (hstuck : ∀ k, (sweepCore (env.tp k)).pending ≠ 0) :
    (H5_term_library env s).2.sweeps = 101 ∧
    (H5_term_library env s).2.pending ≠ 0 ∧
    (H5_term_library env s).2.reportedLoop = env.funcSet := by
  obtain ⟨h1, h2⟩ := termLoopGo_stuck env.tp hstuck 100 0 "" []
  refine ⟨?_, ?_, ?_⟩
  · simp only [H5_term_library, hinit, termLoop]
    simp [h1]
  · simp only [H5_term_library, hinit, termLoop]
    simpa using h2
  · simp only [H5_term_library, hinit, termLoop]
    simp [h2]

/-- Counterexample to C2 as stated: with the event-set subsystem
reporting pending = 1 on every sweep (more than 150 consecutive sweeps
would, were they run), the engine performs 101 sweeps, not 100: the
`ntries++ < 100` post-increment test allows 100 retries after the first
sweep. -/
theorem C2_counterexample :
    (H5_term_library tEnvStuck initState0).2.sweeps = 101 ∧
    (H5_term_library tEnvStuck initState0).2.sweeps ≠ 100 := by
  have hstuck : ∀ k, (sweepCore (stuckTp k)).pending ≠ 0 := fun k => by
    show (sweepCore (fun x => if x = Subsys.ES then 1 else 0)).pending ≠ 0
    decide
  obtain ⟨h1, _⟩ := termLoopGo_stuck stuckTp hstuck 100 0 "" []
  have hs : (H5_term_library tEnvStuck initState0).2.sweeps
      = (termLoop stuckTp).sweeps := by
    simp [H5_term_library, tEnvStuck, initState0, freshState]
  rw [hs, termLoop, h1]
  exact ⟨rfl, by omega⟩

/-- Witness for C2's amended theorem at the concrete stuck environment. -/
theorem C2_witness :
    (H5_term_library tEnvStuck initState0).2.sweeps = 101 ∧
    (H5_term_library tEnvStuck initState0).2.pending ≠ 0 ∧
    (H5_term_library tEnvStuck initState0).2.reportedLoop
      = tEnvStuck.funcSet :=
  C2_nonconvergence tEnvStuck initState0 rfl (fun k => by
      show (sweepCore (fun x => if x = Subsys.ES then 1 else 0)).pending ≠ 0
      decide)

/-! ## Claim C6 -/

/-- C6: when the retry loop ends with pending work (the cap was reached
without convergence), `H5_term_library` in a release-style build prints
the infinite-loop report (with the accumulated subsystem-name buffer)
exactly when error display is enabled, and nevertheless resets both
`H5_libinit_g` and `H5_libterm_g` so a later re-initialization is
possible. -/
theorem C6_nonconvergence_resets_flags (env : TermEnv) (s : H5State)
    (hinit : s.libinit = true)
    (hpend : (termLoop env.tp).pending ≠ 0) :
    (H5_term_library env s).1.libinit = false ∧
    (H5_term_library env s).1.libterm = false ∧
    (H5_term_library env s).2.reportedLoop = env.funcSet ∧
    (H5_term_library env s).2.loopMsg = (termLoop env.tp).buf := by
  refine ⟨?_, ?_, ?_, ?_⟩ <;> simp [H5_term_library, hinit, hpend]

/-- Witness for C6 at the concrete stuck environment. -/
theorem C6_witness :
    (H5_term_library tEnvStuck initState0).1.libinit = false ∧
    (H5_term_library tEnvStuck initState0).1.libterm = false ∧
    (H5_term_library tEnvStuck initState0).2.reportedLoop
      = tEnvStuck.funcSet ∧
    (H5_term_library tEnvStuck initState0).2.loopMsg
      = (termLoop tEnvStuck.tp).buf :=
  C6_nonconvergence_resets_flags tEnvStuck initState0 rfl
    (termLoopGo_stuck stuckTp (fun k => by
      show (sweepCore (fun x => if x = Subsys.ES then 1 else 0)).pending ≠ 0
      decide) 100 0 "" []).2

/-! ## Claim C7 -/

theorem relExcLoop_one_no_abort (lr rn : Nat) (es : List Nat) :
    (relExcLoop 1 lr rn es).2 = false := by
  induction es with
  | nil => rfl
  | cons e es ih =>
      simp only [relExcLoop]
      split
      · simpa using ih
      · exact ih

theorem relExcLoop_ge_two (d lr rn : Nat) (hd : 2 ≤ d) (es : List Nat) :
    relExcLoop d lr rn es = ([], false) := by
  obtain ⟨m, rfl⟩ : ∃ m, d = m + 2 := ⟨d - 2, by omega⟩
  induction es with
  | nil => rfl
  | cons e es ih =>
      simp only [relExcLoop]
      split
      · exact ih
      · exact ih

/-- C7: on a major or minor version mismatch on the first check, the
behavior follows the `HDF5_DISABLE_VERSION_CHECK` override level: level 0
(also the default, when the variable is unset or does not start with a
digit) prints the mismatch diagnostic with the build settings and aborts;
level 1 prints the same mismatch diagnostic with the build settings and
continues; level 2 or higher continues silently, printing nothing at
all. -/
theorem C7_version_guard (lib : LibVersion) (cons : Bool)
    (env : Option (List Char)) (majnum minnum relnum : Nat)
    (hmm : lib.major ≠ majnum ∨ lib.minor ≠ minnum) :
    (parseDisableEnv env = 0 →
      H5_check_version lib cons env false majnum minnum relnum =
        { output := [.mismatchAbortMsg, .versionsLine, .buildSettings,
            .byeMsg],
          aborted := true, checked := false }) ∧
    (parseDisableEnv env = 1 →
      (H5_check_version lib cons env false majnum minnum relnum).aborted
          = false ∧
      VMsg.mismatchWarnMsg
          ∈ (H5_check_version lib cons env false majnum minnum relnum).output ∧
      VMsg.versionsLine
          ∈ (H5_check_version lib cons env false majnum minnum relnum).output ∧
      VMsg.buildSettings
          ∈ (H5_check_version lib cons env false majnum minnum relnum).output) ∧
    (2 ≤ parseDisableEnv env →
      H5_check_version lib cons env false majnum minnum relnum =
        { output := [], aborted := false, checked := true }) := by
  refine ⟨?_, ?_, ?_⟩
  · intro h0
    simp only [H5_check_version, h0, Bool.false_eq_true, if_false]
    rw [if_pos ⟨hmm, trivial⟩, if_pos hmm]
  · intro h1
    simp only [H5_check_version, h1, Bool.false_eq_true, if_false]
    rw [if_neg (by simp), if_pos hmm]
    have hsnd : (if lib.release = relnum then (([] : List VMsg), false)
        else relExcLoop 1 lib.release relnum VERS_RELEASE_EXCEPTIONS).2
        = false := by
      split
      · rfl
      · exact relExcLoop_one_no_abort _ _ _
    rw [if_neg (by simp [hsnd])]
    simp
  · intro h2
    simp only [H5_check_version, Bool.false_eq_true, if_false]
    have hne0 : ¬ parseDisableEnv env = 0 := by omega
    obtain ⟨m, hm⟩ : ∃ m, parseDisableEnv env = m + 2 :=
      ⟨parseDisableEnv env - 2, by omega⟩
    rw [if_neg (fun hc => hne0 hc.2), hm]
    by_cases hrr : lib.release = relnum
    · simp [hrr]
    · simp [hrr, relExcLoop_ge_two (m + 2) lib.release relnum (by omega)]

/-- Witness for C7: a 2-versus-1 major mismatch checked at override
levels 0 (variable unset), 1 and 2. -/
theorem C7_witness :
    (H5_check_version { major := 1, minor := 14, release := 5 } true none
        false 2 0 5 =
      { output := [.mismatchAbortMsg, .versionsLine, .buildSettings,
          .byeMsg],
        aborted := true, checked := false }) ∧
    ((H5_check_version { major := 1, minor := 14, release := 5 } true
          (some "1".toList) false 2 0 5).aborted = false ∧
      VMsg.mismatchWarnMsg
        ∈ (H5_check_version { major := 1, minor := 14, release := 5 } true
            (some "1".toList) false 2 0 5).output ∧
      VMsg.versionsLine
        ∈ (H5_check_version { major := 1, minor := 14, release := 5 } true
            (some "1".toList) false 2 0 5).output ∧
      VMsg.buildSettings
        ∈ (H5_check_version { major := 1, minor := 14, release := 5 } true
            (some "1".toList) false 2 0 5).output) ∧
    (H5_check_version { major := 1, minor := 14, release := 5 } true
        (some "2".toList) false 2 0 5 =
      { output := [], aborted := false, checked := true }) :=
  ⟨(C7_version_guard _ true none 2 0 5 (Or.inl (by decide))).1 (by decide),
   (C7_version_guard _ true (some "1".toList) 2 0 5
      (Or.inl (by decide))).2.1 (by decide),
   (C7_version_guard _ true (some "2".toList) 2 0 5
      (Or.inl (by decide))).2.2 (by decide)⟩

/-! ## Claim C8 -/

/-- C8: parsing the debug flag string `"-all trace ttop"` clears every
subsystem's debug stream (sets it to null), whatever it was before, and
enables tracing with top-level-only mode active: the trace stream is the
standard-error stream (the current stream, no descriptor token having
changed it) and the `ttop` flag is set. -/
theorem C8_debug_mask_all_trace_ttop (env : DbgEnv) (d : H5Debug) :
    (H5__debug_mask env d (some "-all trace ttop".toList)).pkg
        = d.pkg.map (fun p => (p.1, none)) ∧
    (H5__debug_mask env d (some "-all trace ttop".toList)).trace
        = some DStream.stderrS ∧
    (H5__debug_mask env d (some "-all trace ttop".toList)).ttop = true := by
  refine ⟨?_, ?_, ?_⟩ <;>
    simp [H5__debug_mask, dmGo, dbgApplyName, cIsAlpha, cIsDigit]

/-! ## Claim C1 -/

/-- Counterexample to C1 as stated: phases here are the spec's listed
shutdown phases (`Subsys.phaseOf`).  With a subsystem table in which the
link subsystem (phase 2) reports pending = 1 and everything else reports
0, the phase-3 "top" hooks are still invoked in the same sweep, because
`DOWN(L)` and the `*_top` calls sit inside one `if (pending == 0)` block
in `H5_term_library`. -/
theorem C1_counterexample :
    ¬ (∀ (f : Subsys → Nat) (x y : Subsys), x ∈ (sweepCore f).invoked →
        y.phaseOf < x.phaseOf → y ∈ (sweepCore f).invoked ∧ f y = 0) := by
  intro h
  have := h (fun z => if z = .L then 1 else 0) Subsys.A_top Subsys.L
    (by decide) (by decide)
  exact absurd this.2 (by decide)

set_option maxHeartbeats 1600000 in
/-- C1 (amended): a term_package hook is invoked in a sweep only if
every subsystem in a strictly earlier gating block of
`H5_term_library` was invoked in that sweep and reported 0.  (The link
phase and the "top" shutdowns share one gating block, as do the
subsystems inside each listed group.) -/
theorem C1_gate_ordering (f : Subsys → Nat) (x y : Subsys)
    (hx : x ∈ (sweepCore f).invoked) (hlt : y.gateOf < x.gateOf) :
    y ∈ (sweepCore f).invoked ∧ f y = 0 := by
  by_cases h0 : f Subsys.ES = 0
  · by_cases h1 : f Subsys.L + f Subsys.A_top + f Subsys.D_top + f Subsys.G_top + f Subsys.M_top + f Subsys.S_top + f Subsys.T_top = 0
    · by_cases h2 : f Subsys.F = 0
      · by_cases h3 : f Subsys.P = 0
        · by_cases h4 : f Subsys.A + f Subsys.D + f Subsys.G + f Subsys.M + f Subsys.S + f Subsys.T = 0
          · by_cases h5 : f Subsys.AC + f Subsys.Z + f Subsys.FD + f Subsys.VL = 0
            · by_cases h6 : f Subsys.PL = 0
              · by_cases h7 : f Subsys.E = 0
                · by_cases h8 : f Subsys.I = 0
                  · by_cases h9 : f Subsys.SL = 0
                    · by_cases h10 : f Subsys.FL = 0
                      · have hinv : (sweepCore f).invoked = [Subsys.ES, Subsys.L, Subsys.A_top, Subsys.D_top, Subsys.G_top, Subsys.M_top, Subsys.S_top, Subsys.T_top, Subsys.F, Subsys.P, Subsys.A, Subsys.D, Subsys.G, Subsys.M, Subsys.S, Subsys.T, Subsys.AC, Subsys.Z, Subsys.FD, Subsys.VL, Subsys.PL, Subsys.E, Subsys.I, Subsys.SL, Subsys.FL, Subsys.CX] := by
                          simp [sweepCore, downs, ddown, h0, h1, h2, h3, h4, h5, h6, h7, h8, h9, h10]
                        rw [hinv] at hx ⊢
                        have hle : ∀ z : Subsys, z ∈ [Subsys.ES, Subsys.L, Subsys.A_top, Subsys.D_top, Subsys.G_top, Subsys.M_top, Subsys.S_top, Subsys.T_top, Subsys.F, Subsys.P, Subsys.A, Subsys.D, Subsys.G, Subsys.M, Subsys.S, Subsys.T, Subsys.AC, Subsys.Z, Subsys.FD, Subsys.VL, Subsys.PL, Subsys.E, Subsys.I, Subsys.SL, Subsys.FL, Subsys.CX] → z.gateOf ≤ 11 := by decide
                        have hmem : ∀ z : Subsys, z.gateOf < 11 → z ∈ [Subsys.ES, Subsys.L, Subsys.A_top, Subsys.D_top, Subsys.G_top, Subsys.M_top, Subsys.S_top, Subsys.T_top, Subsys.F, Subsys.P, Subsys.A, Subsys.D, Subsys.G, Subsys.M, Subsys.S, Subsys.T, Subsys.AC, Subsys.Z, Subsys.FD, Subsys.VL, Subsys.PL, Subsys.E, Subsys.I, Subsys.SL, Subsys.FL, Subsys.CX] := by decide
                        have hyK : y.gateOf < 11 := lt_of_lt_of_le hlt (hle x hx)
                        refine ⟨hmem y hyK, ?_⟩
                        have hz := hmem y hyK
                        fin_cases hz <;> simp only [Subsys.gateOf] at hyK ⊢ <;> omega
                      · have hinv : (sweepCore f).invoked = [Subsys.ES, Subsys.L, Subsys.A_top, Subsys.D_top, Subsys.G_top, Subsys.M_top, Subsys.S_top, Subsys.T_top, Subsys.F, Subsys.P, Subsys.A, Subsys.D, Subsys.G, Subsys.M, Subsys.S, Subsys.T, Subsys.AC, Subsys.Z, Subsys.FD, Subsys.VL, Subsys.PL, Subsys.E, Subsys.I, Subsys.SL, Subsys.FL] := by
                          simp [sweepCore, downs, ddown, h0, h1, h2, h3, h4, h5, h6, h7, h8, h9, h10]
                        rw [hinv] at hx ⊢
                        have hle : ∀ z : Subsys, z ∈ [Subsys.ES, Subsys.L, Subsys.A_top, Subsys.D_top, Subsys.G_top, Subsys.M_top, Subsys.S_top, Subsys.T_top, Subsys.F, Subsys.P, Subsys.A, Subsys.D, Subsys.G, Subsys.M, Subsys.S, Subsys.T, Subsys.AC, Subsys.Z, Subsys.FD, Subsys.VL, Subsys.PL, Subsys.E, Subsys.I, Subsys.SL, Subsys.FL] → z.gateOf ≤ 10 := by decide
                        have hmem : ∀ z : Subsys, z.gateOf < 10 → z ∈ [Subsys.ES, Subsys.L, Subsys.A_top, Subsys.D_top, Subsys.G_top, Subsys.M_top, Subsys.S_top, Subsys.T_top, Subsys.F, Subsys.P, Subsys.A, Subsys.D, Subsys.G, Subsys.M, Subsys.S, Subsys.T, Subsys.AC, Subsys.Z, Subsys.FD, Subsys.VL, Subsys.PL, Subsys.E, Subsys.I, Subsys.SL, Subsys.FL] := by decide
                        have hyK : y.gateOf < 10 := lt_of_lt_of_le hlt (hle x hx)
                        refine ⟨hmem y hyK, ?_⟩
                        have hz := hmem y hyK
                        fin_cases hz <;> simp only [Subsys.gateOf] at hyK ⊢ <;> omega
                    · have hinv : (sweepCore f).invoked = [Subsys.ES, Subsys.L, Subsys.A_top, Subsys.D_top, Subsys.G_top, Subsys.M_top, Subsys.S_top, Subsys.T_top, Subsys.F, Subsys.P, Subsys.A, Subsys.D, Subsys.G, Subsys.M, Subsys.S, Subsys.T, Subsys.AC, Subsys.Z, Subsys.FD, Subsys.VL, Subsys.PL, Subsys.E, Subsys.I, Subsys.SL] := by
                        simp [sweepCore, downs, ddown, h0, h1, h2, h3, h4, h5, h6, h7, h8, h9]
                      rw [hinv] at hx ⊢
                      have hle : ∀ z : Subsys, z ∈ [Subsys.ES, Subsys.L, Subsys.A_top, Subsys.D_top, Subsys.G_top, Subsys.M_top, Subsys.S_top, Subsys.T_top, Subsys.F, Subsys.P, Subsys.A, Subsys.D, Subsys.G, Subsys.M, Subsys.S, Subsys.T, Subsys.AC, Subsys.Z, Subsys.FD, Subsys.VL, Subsys.PL, Subsys.E, Subsys.I, Subsys.SL] → z.gateOf ≤ 9 := by decide
                      have hmem : ∀ z : Subsys, z.gateOf < 9 → z ∈ [Subsys.ES, Subsys.L, Subsys.A_top, Subsys.D_top, Subsys.G_top, Subsys.M_top, Subsys.S_top, Subsys.T_top, Subsys.F, Subsys.P, Subsys.A, Subsys.D, Subsys.G, Subsys.M, Subsys.S, Subsys.T, Subsys.AC, Subsys.Z, Subsys.FD, Subsys.VL, Subsys.PL, Subsys.E, Subsys.I, Subsys.SL] := by decide
                      have hyK : y.gateOf < 9 := lt_of_lt_of_le hlt (hle x hx)
                      refine ⟨hmem y hyK, ?_⟩
                      have hz := hmem y hyK
                      fin_cases hz <;> simp only [Subsys.gateOf] at hyK ⊢ <;> omega
                  · have hinv : (sweepCore f).invoked = [Subsys.ES, Subsys.L, Subsys.A_top, Subsys.D_top, Subsys.G_top, Subsys.M_top, Subsys.S_top, Subsys.T_top, Subsys.F, Subsys.P, Subsys.A, Subsys.D, Subsys.G, Subsys.M, Subsys.S, Subsys.T, Subsys.AC, Subsys.Z, Subsys.FD, Subsys.VL, Subsys.PL, Subsys.E, Subsys.I] := by
                      simp [sweepCore, downs, ddown, h0, h1, h2, h3, h4, h5, h6, h7, h8]
                    rw [hinv] at hx ⊢
                    have hle : ∀ z : Subsys, z ∈ [Subsys.ES, Subsys.L, Subsys.A_top, Subsys.D_top, Subsys.G_top, Subsys.M_top, Subsys.S_top, Subsys.T_top, Subsys.F, Subsys.P, Subsys.A, Subsys.D, Subsys.G, Subsys.M, Subsys.S, Subsys.T, Subsys.AC, Subsys.Z, Subsys.FD, Subsys.VL, Subsys.PL, Subsys.E, Subsys.I] → z.gateOf ≤ 8 := by decide
                    have hmem : ∀ z : Subsys, z.gateOf < 8 → z ∈ [Subsys.ES, Subsys.L, Subsys.A_top, Subsys.D_top, Subsys.G_top, Subsys.M_top, Subsys.S_top, Subsys.T_top, Subsys.F, Subsys.P, Subsys.A, Subsys.D, Subsys.G, Subsys.M, Subsys.S, Subsys.T, Subsys.AC, Subsys.Z, Subsys.FD, Subsys.VL, Subsys.PL, Subsys.E, Subsys.I] := by decide
                    have hyK : y.gateOf < 8 := lt_of_lt_of_le hlt (hle x hx)
                    refine ⟨hmem y hyK, ?_⟩
                    have hz := hmem y hyK
                    fin_cases hz <;> simp only [Subsys.gateOf] at hyK ⊢ <;> omega
                · have hinv : (sweepCore f).invoked = [Subsys.ES, Subsys.L, Subsys.A_top, Subsys.D_top, Subsys.G_top, Subsys.M_top, Subsys.S_top, Subsys.T_top, Subsys.F, Subsys.P, Subsys.A, Subsys.D, Subsys.G, Subsys.M, Subsys.S, Subsys.T, Subsys.AC, Subsys.Z, Subsys.FD, Subsys.VL, Subsys.PL, Subsys.E] := by
                    simp [sweepCore, downs, ddown, h0, h1, h2, h3, h4, h5, h6, h7]
                  rw [hinv] at hx ⊢
                  have hle : ∀ z : Subsys, z ∈ [Subsys.ES, Subsys.L, Subsys.A_top, Subsys.D_top, Subsys.G_top, Subsys.M_top, Subsys.S_top, Subsys.T_top, Subsys.F, Subsys.P, Subsys.A, Subsys.D, Subsys.G, Subsys.M, Subsys.S, Subsys.T, Subsys.AC, Subsys.Z, Subsys.FD, Subsys.VL, Subsys.PL, Subsys.E] → z.gateOf ≤ 7 := by decide
                  have hmem : ∀ z : Subsys, z.gateOf < 7 → z ∈ [Subsys.ES, Subsys.L, Subsys.A_top, Subsys.D_top, Subsys.G_top, Subsys.M_top, Subsys.S_top, Subsys.T_top, Subsys.F, Subsys.P, Subsys.A, Subsys.D, Subsys.G, Subsys.M, Subsys.S, Subsys.T, Subsys.AC, Subsys.Z, Subsys.FD, Subsys.VL, Subsys.PL, Subsys.E] := by decide
                  have hyK : y.gateOf < 7 := lt_of_lt_of_le hlt (hle x hx)
                  refine ⟨hmem y hyK, ?_⟩
                  have hz := hmem y hyK
                  fin_cases hz <;> simp only [Subsys.gateOf] at hyK ⊢ <;> omega
              · have hinv : (sweepCore f).invoked = [Subsys.ES, Subsys.L, Subsys.A_top, Subsys.D_top, Subsys.G_top, Subsys.M_top, Subsys.S_top, Subsys.T_top, Subsys.F, Subsys.P, Subsys.A, Subsys.D, Subsys.G, Subsys.M, Subsys.S, Subsys.T, Subsys.AC, Subsys.Z, Subsys.FD, Subsys.VL, Subsys.PL] := by
                  simp [sweepCore, downs, ddown, h0, h1, h2, h3, h4, h5, h6]
                rw [hinv] at hx ⊢
                have hle : ∀ z : Subsys, z ∈ [Subsys.ES, Subsys.L, Subsys.A_top, Subsys.D_top, Subsys.G_top, Subsys.M_top, Subsys.S_top, Subsys.T_top, Subsys.F, Subsys.P, Subsys.A, Subsys.D, Subsys.G, Subsys.M, Subsys.S, Subsys.T, Subsys.AC, Subsys.Z, Subsys.FD, Subsys.VL, Subsys.PL] → z.gateOf ≤ 6 := by decide
                have hmem : ∀ z : Subsys, z.gateOf < 6 → z ∈ [Subsys.ES, Subsys.L, Subsys.A_top, Subsys.D_top, Subsys.G_top, Subsys.M_top, Subsys.S_top, Subsys.T_top, Subsys.F, Subsys.P, Subsys.A, Subsys.D, Subsys.G, Subsys.M, Subsys.S, Subsys.T, Subsys.AC, Subsys.Z, Subsys.FD, Subsys.VL, Subsys.PL] := by decide
                have hyK : y.gateOf < 6 := lt_of_lt_of_le hlt (hle x hx)
                refine ⟨hmem y hyK, ?_⟩
                have hz := hmem y hyK
                fin_cases hz <;> simp only [Subsys.gateOf] at hyK ⊢ <;> omega
            · have hinv : (sweepCore f).invoked = [Subsys.ES, Subsys.L, Subsys.A_top, Subsys.D_top, Subsys.G_top, Subsys.M_top, Subsys.S_top, Subsys.T_top, Subsys.F, Subsys.P, Subsys.A, Subsys.D, Subsys.G, Subsys.M, Subsys.S, Subsys.T, Subsys.AC, Subsys.Z, Subsys.FD, Subsys.VL] := by
                simp [sweepCore, downs, ddown, h0, h1, h2, h3, h4, h5]
              rw [hinv] at hx ⊢
              have hle : ∀ z : Subsys, z ∈ [Subsys.ES, Subsys.L, Subsys.A_top, Subsys.D_top, Subsys.G_top, Subsys.M_top, Subsys.S_top, Subsys.T_top, Subsys.F, Subsys.P, Subsys.A, Subsys.D, Subsys.G, Subsys.M, Subsys.S, Subsys.T, Subsys.AC, Subsys.Z, Subsys.FD, Subsys.VL] → z.gateOf ≤ 5 := by decide
              have hmem : ∀ z : Subsys, z.gateOf < 5 → z ∈ [Subsys.ES, Subsys.L, Subsys.A_top, Subsys.D_top, Subsys.G_top, Subsys.M_top, Subsys.S_top, Subsys.T_top, Subsys.F, Subsys.P, Subsys.A, Subsys.D, Subsys.G, Subsys.M, Subsys.S, Subsys.T, Subsys.AC, Subsys.Z, Subsys.FD, Subsys.VL] := by decide
              have hyK : y.gateOf < 5 := lt_of_lt_of_le hlt (hle x hx)
              refine ⟨hmem y hyK, ?_⟩
              have hz := hmem y hyK
              fin_cases hz <;> simp only [Subsys.gateOf] at hyK ⊢ <;> omega
          · have hinv : (sweepCore f).invoked = [Subsys.ES, Subsys.L, Subsys.A_top, Subsys.D_top, Subsys.G_top, Subsys.M_top, Subsys.S_top, Subsys.T_top, Subsys.F, Subsys.P, Subsys.A, Subsys.D, Subsys.G, Subsys.M, Subsys.S, Subsys.T] := by
              simp [sweepCore, downs, ddown, h0, h1, h2, h3, h4]
            rw [hinv] at hx ⊢
            have hle : ∀ z : Subsys, z ∈ [Subsys.ES, Subsys.L, Subsys.A_top, Subsys.D_top, Subsys.G_top, Subsys.M_top, Subsys.S_top, Subsys.T_top, Subsys.F, Subsys.P, Subsys.A, Subsys.D, Subsys.G, Subsys.M, Subsys.S, Subsys.T] → z.gateOf ≤ 4 := by decide
            have hmem : ∀ z : Subsys, z.gateOf < 4 → z ∈ [Subsys.ES, Subsys.L, Subsys.A_top, Subsys.D_top, Subsys.G_top, Subsys.M_top, Subsys.S_top, Subsys.T_top, Subsys.F, Subsys.P, Subsys.A, Subsys.D, Subsys.G, Subsys.M, Subsys.S, Subsys.T] := by decide
            have hyK : y.gateOf < 4 := lt_of_lt_of_le hlt (hle x hx)
            refine ⟨hmem y hyK, ?_⟩
            have hz := hmem y hyK
            fin_cases hz <;> simp only [Subsys.gateOf] at hyK ⊢ <;> omega
        · have hinv : (sweepCore f).invoked = [Subsys.ES, Subsys.L, Subsys.A_top, Subsys.D_top, Subsys.G_top, Subsys.M_top, Subsys.S_top, Subsys.T_top, Subsys.F, Subsys.P] := by
            simp [sweepCore, downs, ddown, h0, h1, h2, h3]
          rw [hinv] at hx ⊢
          have hle : ∀ z : Subsys, z ∈ [Subsys.ES, Subsys.L, Subsys.A_top, Subsys.D_top, Subsys.G_top, Subsys.M_top, Subsys.S_top, Subsys.T_top, Subsys.F, Subsys.P] → z.gateOf ≤ 3 := by decide
          have hmem : ∀ z : Subsys, z.gateOf < 3 → z ∈ [Subsys.ES, Subsys.L, Subsys.A_top, Subsys.D_top, Subsys.G_top, Subsys.M_top, Subsys.S_top, Subsys.T_top, Subsys.F, Subsys.P] := by decide
          have hyK : y.gateOf < 3 := lt_of_lt_of_le hlt (hle x hx)
          refine ⟨hmem y hyK, ?_⟩
          have hz := hmem y hyK
          fin_cases hz <;> simp only [Subsys.gateOf] at hyK ⊢ <;> omega
      · have hinv : (sweepCore f).invoked = [Subsys.ES, Subsys.L, Subsys.A_top, Subsys.D_top, Subsys.G_top, Subsys.M_top, Subsys.S_top, Subsys.T_top, Subsys.F] := by
          simp [sweepCore, downs, ddown, h0, h1, h2]
        rw [hinv] at hx ⊢
        have hle : ∀ z : Subsys, z ∈ [Subsys.ES, Subsys.L, Subsys.A_top, Subsys.D_top, Subsys.G_top, Subsys.M_top, Subsys.S_top, Subsys.T_top, Subsys.F] → z.gateOf ≤ 2 := by decide
        have hmem : ∀ z : Subsys, z.gateOf < 2 → z ∈ [Subsys.ES, Subsys.L, Subsys.A_top, Subsys.D_top, Subsys.G_top, Subsys.M_top, Subsys.S_top, Subsys.T_top, Subsys.F] := by decide
        have hyK : y.gateOf < 2 := lt_of_lt_of_le hlt (hle x hx)
        refine ⟨hmem y hyK, ?_⟩
        have hz := hmem y hyK
        fin_cases hz <;> simp only [Subsys.gateOf] at hyK ⊢ <;> omega
    · have hinv : (sweepCore f).invoked = [Subsys.ES, Subsys.L, Subsys.A_top, Subsys.D_top, Subsys.G_top, Subsys.M_top, Subsys.S_top, Subsys.T_top] := by
        simp [sweepCore, downs, ddown, h0, h1]
      rw [hinv] at hx ⊢
      have hle : ∀ z : Subsys, z ∈ [Subsys.ES, Subsys.L, Subsys.A_top, Subsys.D_top, Subsys.G_top, Subsys.M_top, Subsys.S_top, Subsys.T_top] → z.gateOf ≤ 1 := by decide
      have hmem : ∀ z : Subsys, z.gateOf < 1 → z ∈ [Subsys.ES, Subsys.L, Subsys.A_top, Subsys.D_top, Subsys.G_top, Subsys.M_top, Subsys.S_top, Subsys.T_top] := by decide
      have hyK : y.gateOf < 1 := lt_of_lt_of_le hlt (hle x hx)
      refine ⟨hmem y hyK, ?_⟩
      have hz := hmem y hyK
      fin_cases hz <;> simp only [Subsys.gateOf] at hyK ⊢ <;> omega
  · have hinv : (sweepCore f).invoked = [Subsys.ES] := by
      simp [sweepCore, downs, ddown, h0]
    rw [hinv] at hx ⊢
    have hle : ∀ z : Subsys, z ∈ [Subsys.ES] → z.gateOf ≤ 0 := by decide
    have hmem : ∀ z : Subsys, z.gateOf < 0 → z ∈ [Subsys.ES] := by decide
    have hyK : y.gateOf < 0 := lt_of_lt_of_le hlt (hle x hx)
    refine ⟨hmem y hyK, ?_⟩
    have hz := hmem y hyK
    fin_cases hz <;> simp only [Subsys.gateOf] at hyK ⊢ <;> omega


/-- Witness for C1's amended theorem: with every subsystem quiescent, the
final gate's hook runs and the event-set hook ran before it reporting
0. -/
theorem C1_witness :
    Subsys.ES ∈ (sweepCore (fun _ => 0)).invoked ∧
    (fun _ : Subsys => (0 : Nat)) Subsys.ES = 0 :=
  C1_gate_ordering (fun _ => 0) Subsys.CX Subsys.ES (by decide) (by decide)

end HDF5
